import Mathlib

/-!
# Verification of the Slack Socket Mode event engine

A shallow embedding of the real-time event engine in
`custom_tools/slack.py`: envelope acknowledgment and persistence
(`process_event`), self-message filtering and the message pipeline
(`_process_message`), interactive events (`_process_interactive`), the
event-store tail read (`_get_recent_events` and the `get_recent_events`
action), and connection shutdown (`SocketModeHandler.stop`).

External calls (Slack web API, the agent, the file system) are modelled
by explicit result oracles; each execution of the pipeline produces the
ordered list of observable actions it performs (acknowledgment, store
append, reaction add/remove attempts, agent dispatch, configuration
reads, message publishes).
-/

namespace SlackEngine

/-- Python truthiness of `d.get(k)` for a string-valued optional field:
`None` and `""` are falsy, every other string is truthy. -/
def pyTruthy : Option String → Bool
  | none => false
  | some s => s ≠ ""

/-- The Python substring test `needle in hay`. -/
def pyIn (needle hay : String) : Bool :=
  hay.toList.tails.any (fun t => needle.toList.isPrefixOf t)

/-- The Python `str.strip()`: drop whitespace from both ends. -/
def pyStrip (s : String) : String :=
  String.mk (((s.data.dropWhile Char.isWhitespace).reverse.dropWhile
    Char.isWhitespace).reverse)

/-- The fields of a Slack message event that the engine reads.
`botId`, `user`, `ts`, `channel` model `event.get(...)` (absent keys give
`none`); `hasAppId` models the key-presence test `"app_id" in event`;
`text` models `event.get("text", "")`. -/
structure SlackEvent where
  eventType : Option String
  subtype : Option String
  botId : Option String
  user : Option String
  hasAppId : Bool
  channel : Option String
  text : String
  ts : Option String
  deriving DecidableEq, Repr

/-- A Socket Mode envelope: `req.type`, `req.envelope_id`, the message
event found at `req.payload.get("event", {})`, and the channel/ts fields
read on the interactive branch. -/
structure Envelope where
  reqType : String
  envelopeId : String
  event : SlackEvent
  interChannel : Option String
  interTs : Option String
  deriving DecidableEq, Repr

/-- Handler state relevant to classification: the cached `bot_info`.
`none` means `auth_test` has not been attempted yet; `some u` means the
cache holds a record whose `user_id` is `u` (`u = none` when identity
resolution failed and the fallback `{"user_id": None}` was cached). -/
structure HandlerState where
  botInfo : Option (Option String)
  deriving DecidableEq, Repr

/-- The runtime environment read during one pipeline execution: whether
the global web client and the delegate agent are set, and the values
produced by each environment-variable read (`STRANDS_SLACK_LISTEN_ONLY_TAG`
once, and `STRANDS_SLACK_AUTO_REPLY` at each of its three read sites). -/
structure Env where
  clientPresent : Bool
  agentPresent : Bool
  listenOnlyTag : String
  autoReplySend : Bool
  autoReplyErr : Bool
  autoReplyInteractive : Bool
  deriving DecidableEq, Repr

/-- Result oracles for the external calls one envelope can trigger: an
`Except.error` value means that call raised. -/
structure CallResults where
  writeOk : Except String Unit
  authTest : Except String (Option String)
  agentResp : Except String String
  postOk : Except String Unit
  removeThinking : Except String Unit
  addCheck : Except String Unit
  removeThinkingErr : Except String Unit
  addX : Except String Unit
  postErrOk : Except String Unit
  agentRespInteractive : Except String String
  postInteractive : Except String Unit
  addCheckInteractive : Except String Unit

/-- Observable actions of the engine, in execution order. Reaction
actions record the attempted call (the oracle decides its success). -/
inductive Action where
  | ack (envelopeId : String)
  | append
  | addReact (name : String)
  | removeReact (name : String)
  | dispatch
  | readAutoReply (value : Bool)
  | publish (channel : Option String) (text : String) (threadTs : Option String)
  deriving DecidableEq, Repr

/-- The origin classification at the top of `_process_message`:
`bool(event.get("bot_id")) or event.get("user") == bot_info.get("user_id")
or "app_id" in event`. -/
def isSelf (ev : SlackEvent) (botUserId : Option String) : Bool :=
  pyTruthy ev.botId || (ev.user == botUserId) || ev.hasAppId

/-- The identity the current call will classify against: the cached
`bot_info.user_id` when present, otherwise the result of `auth_test`
(with the `{"user_id": None}` fallback when it raises). -/
def resolvedIdent (st : HandlerState) (r : CallResults) : Option String :=
  match st.botInfo with
  | some i => i
  | none =>
    match r.authTest with
    | .ok u => u
    | .error _ => none

/-- The `except` branch of `_process_message` (error path): clear the
thinking reaction, add the `x` reaction, then re-read the auto-reply
flag and, when enabled, post the error notice; a failure of any of these
calls is swallowed by the inner handler and stops the sequence. -/
def errorActs (ev : SlackEvent) (env : Env) (r : CallResults) (e : String) :
    List Action :=
  if env.clientPresent then
    Action.removeReact "thinking_face" ::
      match r.removeThinkingErr with
      | .error _ => []
      | .ok _ =>
        Action.addReact "x" ::
          match r.addX with
          | .error _ => []
          | .ok _ =>
            Action.readAutoReply env.autoReplyErr ::
              if env.autoReplyErr then
                [Action.publish ev.channel ("Error processing message: " ++ e) ev.ts]
              else []
  else []

/-- The tail of the success branch: remove the thinking reaction then add
the check mark; either call raising diverts to the error path. -/
def resolveActs (ev : SlackEvent) (env : Env) (r : CallResults) : List Action :=
  Action.removeReact "thinking_face" ::
    match r.removeThinking with
    | .error e => errorActs ev env r e
    | .ok _ =>
      Action.addReact "white_check_mark" ::
        match r.addCheck with
        | .error e => errorActs ev env r e
        | .ok _ => []

/-- The send block of `_process_message`: runs only for a truthy,
non-whitespace response and only when the client is set; it reads the
auto-reply flag fresh, publishes when it is enabled, then resolves the
reactions. A raising publish diverts to the error path. -/
def sendActs (ev : SlackEvent) (env : Env) (r : CallResults) (s : String) :
    List Action :=
  if pyStrip s ≠ "" then
    if env.clientPresent then
      Action.readAutoReply env.autoReplySend ::
        if env.autoReplySend then
          Action.publish ev.channel (pyStrip s) ev.ts ::
            match r.postOk with
            | .error e => errorActs ev env r e
            | .ok _ => resolveActs ev env r
        else resolveActs ev env r
    else []
  else []

/-- The method `SocketModeHandler._process_message`: resolve and cache the bot
identity, skip self-originated events, bail out without an agent, add
the thinking reaction, apply the listen-only tag gate, dispatch to the
agent, and handle the response or the raised error. Returns the new
handler state and the action trace. -/
def processMessage (st : HandlerState) (ev : SlackEvent) (env : Env)
    (r : CallResults) : HandlerState × List Action :=
  let ident := resolvedIdent st r
  let st' : HandlerState := ⟨some ident⟩
  if isSelf ev ident then (st', [])
  else if !env.agentPresent then (st', [])
  else
    let t1 := if env.clientPresent then [Action.addReact "thinking_face"] else []
    if env.listenOnlyTag ≠ "" && !pyIn env.listenOnlyTag ev.text then (st', t1)
    else
      (st', t1 ++ Action.dispatch ::
        match r.agentResp with
        | .error e => errorActs ev env r e
        | .ok s => sendActs ev env r s)

/-- The completion reaction of `_process_interactive`; its raising is
handled by the except branch, which attempts the `x` reaction. -/
def checkActsInteractive (r : CallResults) : List Action :=
  Action.addReact "white_check_mark" ::
    match r.addCheckInteractive with
    | .error _ => [Action.addReact "x"]
    | .ok _ => []

/-- The method `SocketModeHandler._process_interactive`: with a client and an agent,
dispatch, then (when auto-reply reads enabled) publish the response and
add the completion reaction; any raise is answered by an `x` reaction
attempt. -/
def processInteractive (ch ts : Option String) (env : Env) (r : CallResults) :
    List Action :=
  if env.clientPresent && env.agentPresent then
    Action.dispatch ::
      match r.agentRespInteractive with
      | .error _ => [Action.addReact "x"]
      | .ok s =>
        Action.readAutoReply env.autoReplyInteractive ::
          if env.autoReplyInteractive then
            Action.publish ch (pyStrip s) ts ::
              match r.postInteractive with
              | .error _ => [Action.addReact "x"]
              | .ok _ => checkActsInteractive r
          else checkActsInteractive r
  else []

/-- The listener `process_event` installed by `_setup_listeners`: acknowledge the envelope
first, then (inside the catch-all) append it to the event store and
route it by type; an exception anywhere downstream is caught and logged,
leaving the acknowledgment in place. -/
def processEnvelope (st : HandlerState) (req : Envelope) (env : Env)
    (r : CallResults) : HandlerState × List Action :=
  let ackAct := Action.ack req.envelopeId
  match r.writeOk with
  | .error _ => (st, [ackAct])
  | .ok _ =>
    if req.reqType = "events_api" ∧ req.event.eventType = some "message" ∧
        pyTruthy req.event.subtype = false then
      let res := processMessage st req.event env r
      (res.1, ackAct :: Action.append :: res.2)
    else if req.reqType = "interactive" then
      (st, ackAct :: Action.append ::
        processInteractive req.interChannel req.interTs env r)
    else (st, [ackAct, Action.append])

/-- A record of the durable event log (`event_type`, `envelope_id` are
the fields the engine itself writes and reads back). -/
structure StoredEvent where
  eventType : String
  envelopeId : String
  deriving DecidableEq, Repr

/-- The Python slice `xs[-count:]` as used by `readlines()[-count:]`. -/
def pyTailSlice {α : Type} (xs : List α) (count : Int) : List α :=
  if count > 0 then xs.drop (xs.length - count.toNat)
  else if count = 0 then xs
  else xs.drop (-count).toNat

/-- The read path of `_get_recent_events` and of the `get_recent_events` action: take the last
`count` lines of the log, parse each one, and skip lines whose parse
raises (`some e` is a line `json.loads` accepts, `none` a corrupt
line). -/
def tailEvents (lines : List (Option StoredEvent)) (count : Int) :
    List StoredEvent :=
  (pyTailSlice lines count).filterMap id

/-- The method `SocketModeHandler.stop`: result is the pair
(`is_connected` after the call, returned boolean). The close call only
happens when the handler believes it is connected and holds a client;
a raising close is caught and reported as `False`. -/
def stop (isConnected : Bool) (clientPresent : Bool)
    (closeOk : Except String Unit) : Bool × Bool :=
  if isConnected && clientPresent then
    match closeOk with
    | .ok _ => (false, true)
    | .error _ => (isConnected, false)
  else (isConnected, true)

/-- Actions that are agent dispatches. -/
def isDispatch : Action → Bool
  | .dispatch => true
  | _ => false

/-- Actions that publish a message to the channel. -/
def isPublish : Action → Bool
  | .publish _ _ _ => true
  | _ => false

/-- Number of agent dispatches in a trace. -/
def dispatchCount (tr : List Action) : Nat :=
  tr.countP isDispatch

/-- Number of publishes in a trace. -/
def publishCount (tr : List Action) : Nat :=
  tr.countP isPublish

/-- Every publish in the trace is immediately preceded by a read of the
auto-reply flag that returned `true`. -/
def publishGuarded : List Action → Bool
  | [] => true
  | .readAutoReply b :: .publish _ _ _ :: rest => b && publishGuarded rest
  | .publish _ _ _ :: _ => false
  | _ :: rest => publishGuarded rest


/-! ## Fixtures: concrete inputs used by witnesses and counterexamples -/

/-- Fixture: an ordinary external user message. -/
def evUser : SlackEvent :=
  ⟨some "message", none, none, some "U123", false, some "C1", "no tag here",
    some "1111.2222"⟩

/-- Fixture: an external user message carrying the listen-only tag. -/
def evUserTagged : SlackEvent := { evUser with text := "URGENT: do X" }

/-- Fixture: a message the engine itself published (`bot_id` set). -/
def evSelfBot : SlackEvent := { evUser with botId := some "B99" }

/-- Fixture: a message whose `bot_id` key is present but empty. -/
def evBotIdEmpty : SlackEvent :=
  { evUser with botId := some "", text := "hello" }

/-- Fixture: a message event that carries no `user` field. -/
def evUserless : SlackEvent := { evUser with user := none, text := "hello there" }

/-- Fixture: handler state with the bot identity already cached. -/
def stCached : HandlerState := ⟨some (some "UBOT")⟩

/-- Fixture: client and agent present, no listen-only tag, auto-reply on. -/
def envPlain : Env := ⟨true, true, "", true, true, true⟩

/-- Fixture: same as `envPlain` with the listen-only tag `"URGENT"` set. -/
def envTagged : Env := { envPlain with listenOnlyTag := "URGENT" }

/-- Fixture: every external call succeeds. -/
def rAllOk : CallResults :=
  ⟨.ok (), .ok (some "UBOT"), .ok "All done.", .ok (), .ok (), .ok (), .ok (),
    .ok (), .ok (), .ok "done", .ok (), .ok ()⟩

/-- The origin classification as the specification words it: an event is
self-originated iff its `bot_id` field is present, or its user equals the
cached identity, or its `app_id` field is present. -/
def specSelf (ev : SlackEvent) (botUserId : Option String) : Prop :=
  ev.botId.isSome = true ∨ ev.user = botUserId ∨ ev.hasAppId = true

/-- The amended classification: the `bot_id` disjunct requires a present
AND non-empty (truthy) value; the other two disjuncts are unchanged. -/
def specSelfAmended (ev : SlackEvent) (botUserId : Option String) : Prop :=
  (∃ s, ev.botId = some s ∧ s ≠ "") ∨ ev.user = botUserId ∨ ev.hasAppId = true

/-- Fixture: a log with two valid records around one corrupt line. -/
def linesFix : List (Option StoredEvent) :=
  [some ⟨"events_api", "e1"⟩, none, some ⟨"events_api", "e2"⟩]

/-- Sequential processing of a batch of message events, threading the
handler state and concatenating the traces. -/
def runMessages (st : HandlerState) :
    List (SlackEvent × Env × CallResults) → HandlerState × List Action
  | [] => (st, [])
  | p :: ps =>
    let step := processMessage st p.1 p.2.1 p.2.2
    let rest := runMessages step.1 ps
    (rest.1, step.2 ++ rest.2)

/-! ## Helper lemmas -/

/-- The error path performs no agent dispatch. -/
theorem dispatchCount_errorActs (ev : SlackEvent) (env : Env) (r : CallResults)
    (e : String) : dispatchCount (errorActs ev env r e) = 0 := by
  unfold errorActs dispatchCount
  split
  · cases r.removeThinkingErr <;> cases r.addX <;>
      cases henv : env.autoReplyErr <;>
      simp [isDispatch, List.countP_cons, henv]
  · rfl

/-- The reaction-resolution tail performs no agent dispatch. -/
theorem dispatchCount_resolveActs (ev : SlackEvent) (env : Env)
    (r : CallResults) : dispatchCount (resolveActs ev env r) = 0 := by
  unfold resolveActs
  cases hrt : r.removeThinking <;> cases hac : r.addCheck <;>
    simp [dispatchCount, isDispatch, List.countP_cons, hrt, hac] <;>
    simpa [dispatchCount] using dispatchCount_errorActs ev env r _

/-- The send block performs no agent dispatch. -/
theorem dispatchCount_sendActs (ev : SlackEvent) (env : Env) (r : CallResults)
    (s : String) : dispatchCount (sendActs ev env r s) = 0 := by
  unfold sendActs
  split
  · split
    · cases hsend : env.autoReplySend <;> cases hpost : r.postOk <;>
        simp [dispatchCount, isDispatch, List.countP_cons, hsend, hpost] <;>
        first
          | simpa [dispatchCount] using dispatchCount_resolveActs ev env r
          | simpa [dispatchCount] using dispatchCount_errorActs ev env r _
    · rfl
  · rfl

/-- The handler state after `_process_message` always holds the resolved
identity in the `bot_info` cache. -/
theorem processMessage_fst (st : HandlerState) (ev : SlackEvent) (env : Env)
    (r : CallResults) :
    (processMessage st ev env r).1 = ⟨some (resolvedIdent st r)⟩ := by
  unfold processMessage
  dsimp only
  split
  · rfl
  · split
    · rfl
    · split <;> rfl

/-! ## Claim theorems -/

/-- C2: for every envelope, the acknowledgment carrying the envelope id is
the first action of the receive point — it precedes the store append, the
classification and any dispatch, whatever the envelope type and whichever
downstream calls later fail. -/
theorem ack_precedes_processing (st : HandlerState) (req : Envelope)
    (env : Env) (r : CallResults) :
    ∃ rest, (processEnvelope st req env r).2 =
      Action.ack req.envelopeId :: rest := by
  unfold processEnvelope
  cases r.writeOk
  · exact ⟨_, rfl⟩
  · dsimp only
    split
    · exact ⟨_, rfl⟩
    · split
      · exact ⟨_, rfl⟩
      · exact ⟨_, rfl⟩

/-- C3: a message event classified as self-originated is still appended to
the durable event store, and the per-message agent is dispatched zero
times for it. -/
theorem self_event_stored_not_dispatched (st : HandlerState) (req : Envelope)
    (env : Env) (r : CallResults)
    (hty : req.reqType = "events_api" ∧ req.event.eventType = some "message" ∧
      pyTruthy req.event.subtype = false)
    (hself : isSelf req.event (resolvedIdent st r) = true)
    (hw : r.writeOk = Except.ok ()) :
    Action.append ∈ (processEnvelope st req env r).2 ∧
      dispatchCount (processEnvelope st req env r).2 = 0 := by
  have hmsg : (processMessage st req.event env r).2 = [] := by
    unfold processMessage
    simp [hself]
  unfold processEnvelope
  rw [hw]
  simp [hty, hmsg, dispatchCount, isDispatch, List.countP_cons]

/-- Witness for C3 at a concrete self message (`bot_id` set). -/
theorem self_event_stored_not_dispatched_witness :
    Action.append ∈
      (processEnvelope stCached ⟨"events_api", "env-7", evSelfBot, none, none⟩
        envPlain rAllOk).2 ∧
    dispatchCount
      (processEnvelope stCached ⟨"events_api", "env-7", evSelfBot, none, none⟩
        envPlain rAllOk).2 = 0 :=
  self_event_stored_not_dispatched stCached
    ⟨"events_api", "env-7", evSelfBot, none, none⟩ envPlain rAllOk
    ⟨rfl, rfl, rfl⟩ (by decide) rfl

/-- C4: with a non-empty listen-only tag, an external message whose text
does not contain the tag is dispatched zero times, and one whose text
contains the tag is dispatched exactly once. -/
theorem listen_only_tag_gate (st : HandlerState) (ev : SlackEvent) (env : Env)
    (r : CallResults)
    (hext : isSelf ev (resolvedIdent st r) = false)
    (hag : env.agentPresent = true)
    (htag : env.listenOnlyTag ≠ "") :
    (pyIn env.listenOnlyTag ev.text = false →
        dispatchCount (processMessage st ev env r).2 = 0) ∧
      (pyIn env.listenOnlyTag ev.text = true →
        dispatchCount (processMessage st ev env r).2 = 1) := by
  constructor
  · intro hmiss
    have hpm : (processMessage st ev env r).2 =
        (if env.clientPresent then [Action.addReact "thinking_face"]
          else []) := by
      unfold processMessage
      simp [hext, hag, htag, hmiss]
    rw [hpm]
    cases env.clientPresent <;>
      simp [dispatchCount, isDispatch, List.countP_cons]
  · intro hhit
    cases hresp : r.agentResp with
    | error e =>
      have hpm : (processMessage st ev env r).2 =
          (if env.clientPresent then [Action.addReact "thinking_face"]
            else []) ++ Action.dispatch :: errorActs ev env r e := by
        unfold processMessage
        simp [hext, hag, hhit, hresp]
      rw [hpm]
      have h0 := dispatchCount_errorActs ev env r e
      unfold dispatchCount at h0 ⊢
      cases env.clientPresent <;>
        simp [isDispatch, List.countP_cons, List.countP_append, h0]
    | ok s =>
      have hpm : (processMessage st ev env r).2 =
          (if env.clientPresent then [Action.addReact "thinking_face"]
            else []) ++ Action.dispatch :: sendActs ev env r s := by
        unfold processMessage
        simp [hext, hag, hhit, hresp]
      rw [hpm]
      have h0 := dispatchCount_sendActs ev env r s
      unfold dispatchCount at h0 ⊢
      cases env.clientPresent <;>
        simp [isDispatch, List.countP_cons, List.countP_append, h0]

/-- Witness for C4 with tag `"URGENT"`: text `"no tag here"` gives zero
dispatches, text `"URGENT: do X"` exactly one. -/
theorem listen_only_tag_gate_witness :
    dispatchCount (processMessage stCached evUser envTagged rAllOk).2 = 0 ∧
      dispatchCount
        (processMessage stCached evUserTagged envTagged rAllOk).2 = 1 :=
  ⟨(listen_only_tag_gate stCached evUser envTagged rAllOk (by decide) rfl
      (by decide)).1 (by decide),
    (listen_only_tag_gate stCached evUserTagged envTagged rAllOk (by decide) rfl
      (by decide)).2 (by decide)⟩

/-- C1 counterexample: a message whose `bot_id` key is present but holds
the empty string is `Self` by the claim as stated, yet the code classifies
it as external and dispatches it (once) instead of skipping it. -/
theorem origin_filter_counterexample :
    specSelf evBotIdEmpty (some "UBOT") ∧
      isSelf evBotIdEmpty (some "UBOT") = false ∧
      dispatchCount
        (processMessage stCached evBotIdEmpty envPlain rAllOk).2 = 1 :=
  ⟨Or.inl rfl, rfl, by decide⟩

/-- C1 amended: the code classifies an event as `Self` iff its `bot_id`
is present with a non-empty value, or its user equals the cached
identity (Python `==`, so a missing user matches a missing cached id), or
its `app_id` key is present; a `Self` event produces an empty pipeline
trace (it is skipped before any reaction, dispatch or publish). -/
theorem origin_filter_amended :
    (∀ (ev : SlackEvent) (ident : Option String),
        isSelf ev ident = true ↔ specSelfAmended ev ident) ∧
      ∀ (st : HandlerState) (ev : SlackEvent) (env : Env) (r : CallResults),
        isSelf ev (resolvedIdent st r) = true →
          (processMessage st ev env r).2 = [] := by
  constructor
  · intro ev ident
    unfold isSelf specSelfAmended pyTruthy
    cases hb : ev.botId <;>
      simp [hb, Bool.or_eq_true, beq_iff_eq, or_assoc]
  · intro st ev env r hself
    unfold processMessage
    simp [hself]

/-- Witness for C1 amended at a concrete `bot_id`-carrying message. -/
theorem origin_filter_amended_witness :
    (isSelf evSelfBot (some "UBOT") = true ↔
        specSelfAmended evSelfBot (some "UBOT")) ∧
      (processMessage stCached evSelfBot envPlain rAllOk).2 = [] :=
  ⟨origin_filter_amended.1 evSelfBot (some "UBOT"),
    origin_filter_amended.2 stCached evSelfBot envPlain rAllOk (by decide)⟩

/-- C5 counterexample: with tag `"URGENT"` and text `"no tag here"`, the
short-circuited pipeline never clears the thinking marker and never sets
the completion marker — the claimed `Thinking` to `Done` transition does
not happen. -/
theorem gate_reaction_counterexample :
    pyIn "URGENT" "no tag here" = false ∧
      ¬ (Action.removeReact "thinking_face" ∈
            (processMessage stCached evUser envTagged rAllOk).2 ∧
          Action.addReact "white_check_mark" ∈
            (processMessage stCached evUser envTagged rAllOk).2) := by
  decide

/-- C5 amended: an external message short-circuited by the listen-only
gate ends the pipeline with the thinking marker still set: the trace is
exactly the thinking-reaction attempt (when a client exists) — no clear,
no completion marker, no dispatch, no publish. -/
theorem gate_leaves_thinking_set (st : HandlerState) (ev : SlackEvent)
    (env : Env) (r : CallResults)
    (hext : isSelf ev (resolvedIdent st r) = false)
    (hag : env.agentPresent = true)
    (htag : env.listenOnlyTag ≠ "")
    (hmiss : pyIn env.listenOnlyTag ev.text = false) :
    (processMessage st ev env r).2 =
      (if env.clientPresent then [Action.addReact "thinking_face"]
        else []) := by
  unfold processMessage
  simp [hext, hag, htag, hmiss]

/-- Witness for C5 amended at the concrete gated message. -/
theorem gate_leaves_thinking_set_witness :
    (processMessage stCached evUser envTagged rAllOk).2 =
      (if envTagged.clientPresent then [Action.addReact "thinking_face"]
        else []) :=
  gate_leaves_thinking_set stCached evUser envTagged rAllOk (by decide) rfl
    (by decide) (by decide)

/-- C6 counterexample: a successful but whitespace-only agent response is
not published (as claimed) but the pipeline also performs no reaction
resolution — the thinking marker is never cleared and the completion
marker never set, so the claimed `Done` resolution does not happen. -/
theorem empty_response_counterexample :
    pyStrip "   " = "" ∧
      publishCount (processMessage stCached evUser envPlain
        { rAllOk with agentResp := Except.ok "   " }).2 = 0 ∧
      ¬ (Action.removeReact "thinking_face" ∈
            (processMessage stCached evUser envPlain
              { rAllOk with agentResp := Except.ok "   " }).2 ∧
          Action.addReact "white_check_mark" ∈
            (processMessage stCached evUser envPlain
              { rAllOk with agentResp := Except.ok "   " }).2) := by
  refine ⟨by decide, by decide, by decide⟩

/-- C6 amended: a successful empty or whitespace-only response ends the
pipeline right after the dispatch: no publish, no reaction change at all
(the thinking marker stays set, neither the completion nor the error
marker is added) — still distinct from the error outcome, which adds the
`x` marker. -/
theorem empty_response_no_publish_no_resolve (st : HandlerState)
    (ev : SlackEvent) (env : Env) (r : CallResults) (s : String)
    (hext : isSelf ev (resolvedIdent st r) = false)
    (hag : env.agentPresent = true)
    (htagpass : env.listenOnlyTag = "" ∨ pyIn env.listenOnlyTag ev.text = true)
    (hresp : r.agentResp = Except.ok s)
    (hempty : pyStrip s = "") :
    (processMessage st ev env r).2 =
      (if env.clientPresent then [Action.addReact "thinking_face"]
        else []) ++ [Action.dispatch] := by
  have hsend : sendActs ev env r s = [] := by
    unfold sendActs
    simp [hempty]
  unfold processMessage
  rcases htagpass with h | h <;> simp [hext, hag, hresp, hsend, h]

/-- Witness for C6 amended at a concrete whitespace-only response. -/
theorem empty_response_no_publish_no_resolve_witness :
    (processMessage stCached evUser envPlain
        { rAllOk with agentResp := Except.ok "   " }).2 =
      (if envPlain.clientPresent then [Action.addReact "thinking_face"]
        else []) ++ [Action.dispatch] :=
  empty_response_no_publish_no_resolve stCached evUser envPlain
    { rAllOk with agentResp := Except.ok "   " } "   " (by decide) rfl
    (Or.inl rfl) rfl (by decide)

/-- A trailing `addReact` never changes the publish-guard check. -/
theorem publishGuarded_addReact (n : String) (l : List Action) :
    publishGuarded (Action.addReact n :: l) = publishGuarded l := rfl

/-- A trailing `removeReact` never changes the publish-guard check. -/
theorem publishGuarded_removeReact (n : String) (l : List Action) :
    publishGuarded (Action.removeReact n :: l) = publishGuarded l := rfl

/-- A `dispatch` never changes the publish-guard check. -/
theorem publishGuarded_dispatch (l : List Action) :
    publishGuarded (Action.dispatch :: l) = publishGuarded l := rfl

/-- A configuration read immediately followed by a publish passes the
guard exactly when the read returned true. -/
theorem publishGuarded_read_publish (b : Bool) (c : Option String)
    (t : String) (th : Option String) (l : List Action) :
    publishGuarded (Action.readAutoReply b :: Action.publish c t th :: l) =
      (b && publishGuarded l) := rfl

/-- A configuration read at the end of the trace passes the guard. -/
theorem publishGuarded_read_nil (b : Bool) :
    publishGuarded [Action.readAutoReply b] = true := rfl

/-- A configuration read followed by a reaction removal is inert. -/
theorem publishGuarded_read_removeReact (b : Bool) (n : String)
    (l : List Action) :
    publishGuarded (Action.readAutoReply b :: Action.removeReact n :: l) =
      publishGuarded (Action.removeReact n :: l) := rfl

/-- The error path only publishes directly after reading the auto-reply
flag as enabled. -/
theorem publishGuarded_errorActs (ev : SlackEvent) (env : Env)
    (r : CallResults) (e : String) :
    publishGuarded (errorActs ev env r e) = true := by
  unfold errorActs
  split
  · cases r.removeThinkingErr with
    | error m => rfl
    | ok u =>
      cases r.addX with
      | error m => rfl
      | ok u2 =>
        cases henv : env.autoReplyErr <;>
          simp [publishGuarded_removeReact, publishGuarded_addReact,
            publishGuarded_read_publish, publishGuarded_read_nil, henv,
            publishGuarded]
  · rfl

/-- The resolution tail only publishes through the error path. -/
theorem publishGuarded_resolveActs (ev : SlackEvent) (env : Env)
    (r : CallResults) :
    publishGuarded (resolveActs ev env r) = true := by
  unfold resolveActs
  cases r.removeThinking with
  | error m =>
    simpa [publishGuarded_removeReact] using
      publishGuarded_errorActs ev env r m
  | ok u =>
    cases r.addCheck with
    | error m =>
      simpa [publishGuarded_removeReact, publishGuarded_addReact] using
        publishGuarded_errorActs ev env r m
    | ok u2 => rfl

/-- The send block only publishes directly after reading the auto-reply
flag as enabled. -/
theorem publishGuarded_sendActs (ev : SlackEvent) (env : Env)
    (r : CallResults) (s : String) :
    publishGuarded (sendActs ev env r s) = true := by
  unfold sendActs
  split
  · split
    · cases hsend : env.autoReplySend with
      | true =>
        cases hpost : r.postOk with
        | error m =>
          simpa [publishGuarded_read_publish, hsend] using
            publishGuarded_errorActs ev env r m
        | ok u =>
          simpa [publishGuarded_read_publish, hsend] using
            publishGuarded_resolveActs ev env r
      | false =>
        have h := publishGuarded_resolveActs ev env r
        unfold resolveActs at h ⊢
        simpa [publishGuarded_read_removeReact] using h
    · rfl
  · rfl

/-- C7: the auto-reply flag is read at send time. Every publish in a
message-pipeline trace directly follows a read of the flag that returned
true; when the flag reads false at the send point the trace contains the
dispatch, the false read, and the full `Done` resolution (thinking marker
cleared, check mark set) with no publish; when the dispatch fails and the
flag reads false at the error point the trace contains the `Error`
resolution (thinking marker cleared, `x` set) with no publish. -/
theorem auto_reply_read_at_send_time (st : HandlerState) (ev : SlackEvent)
    (env : Env) (r : CallResults) :
    publishGuarded (processMessage st ev env r).2 = true ∧
      (∀ s, isSelf ev (resolvedIdent st r) = false → env.agentPresent = true →
        (env.listenOnlyTag = "" ∨ pyIn env.listenOnlyTag ev.text = true) →
        env.clientPresent = true → r.agentResp = Except.ok s →
        pyStrip s ≠ "" → env.autoReplySend = false →
        r.removeThinking = Except.ok () → r.addCheck = Except.ok () →
        (processMessage st ev env r).2 =
          [Action.addReact "thinking_face", Action.dispatch,
            Action.readAutoReply false, Action.removeReact "thinking_face",
            Action.addReact "white_check_mark"]) ∧
      (∀ e, isSelf ev (resolvedIdent st r) = false → env.agentPresent = true →
        (env.listenOnlyTag = "" ∨ pyIn env.listenOnlyTag ev.text = true) →
        env.clientPresent = true → r.agentResp = Except.error e →
        env.autoReplyErr = false → r.removeThinkingErr = Except.ok () →
        r.addX = Except.ok () →
        (processMessage st ev env r).2 =
          [Action.addReact "thinking_face", Action.dispatch,
            Action.removeReact "thinking_face", Action.addReact "x",
            Action.readAutoReply false]) := by
  refine ⟨?_, ?_, ?_⟩
  · unfold processMessage
    dsimp only
    split
    · rfl
    · split
      · rfl
      · split
        · cases env.clientPresent <;> rfl
        · cases hresp : r.agentResp with
          | error e =>
            have h := publishGuarded_errorActs ev env r e
            cases env.clientPresent <;>
              simpa [publishGuarded_addReact, publishGuarded_dispatch] using h
          | ok s =>
            have h := publishGuarded_sendActs ev env r s
            cases env.clientPresent <;>
              simpa [publishGuarded_addReact, publishGuarded_dispatch] using h
  · intro s hext hag htagpass hcl hresp hne hsend hrt hac
    have hsendActs : sendActs ev env r s =
        [Action.readAutoReply false, Action.removeReact "thinking_face",
          Action.addReact "white_check_mark"] := by
      unfold sendActs resolveActs
      simp [hne, hcl, hsend, hrt, hac]
    unfold processMessage
    rcases htagpass with h | h <;>
      simp [hext, hag, hcl, hresp, hsendActs, h]
  · intro e hext hag htagpass hcl hresp herr hrt hax
    have herrActs : errorActs ev env r e =
        [Action.removeReact "thinking_face", Action.addReact "x",
          Action.readAutoReply false] := by
      unfold errorActs
      simp [hcl, hrt, hax, herr]
    unfold processMessage
    rcases htagpass with h | h <;>
      simp [hext, hag, hcl, hresp, herrActs, h]

/-- Witness for C7: concrete runs with the flag toggled off at the send
point (successful dispatch) and at the error point (failing dispatch). -/
theorem auto_reply_read_at_send_time_witness :
    (processMessage stCached evUser { envPlain with autoReplySend := false }
        rAllOk).2 =
      [Action.addReact "thinking_face", Action.dispatch,
        Action.readAutoReply false, Action.removeReact "thinking_face",
        Action.addReact "white_check_mark"] ∧
      (processMessage stCached evUser { envPlain with autoReplyErr := false }
          { rAllOk with agentResp := Except.error "boom" }).2 =
        [Action.addReact "thinking_face", Action.dispatch,
          Action.removeReact "thinking_face", Action.addReact "x",
          Action.readAutoReply false] :=
  ⟨(auto_reply_read_at_send_time stCached evUser
      { envPlain with autoReplySend := false } rAllOk).2.1 "All done."
      (by decide) rfl (Or.inl rfl) rfl rfl (by decide) rfl rfl rfl,
    (auto_reply_read_at_send_time stCached evUser
      { envPlain with autoReplyErr := false }
      { rAllOk with agentResp := Except.error "boom" }).2.2 "boom"
      (by decide) rfl (Or.inl rfl) rfl rfl rfl rfl rfl⟩

/-- C8 counterexample: `tail(0)` does not return at most `0` events — the
Python slice `lines[-0:]` is the whole file, so a store with one valid
record yields one event, refuting the claim at `n = 0`. -/
theorem tail_counterexample :
    tailEvents [some ⟨"events_api", "e1"⟩] 0 = [⟨"events_api", "e1"⟩] ∧
      ¬ (tailEvents [some ⟨"events_api", "e1"⟩] 0).length ≤ 0 := by
  refine ⟨rfl, by decide⟩

/-- C8 amended: for every `n ≥ 1`, `tail(n)` parses exactly the last `n`
lines of the store in arrival order, skipping corrupt lines without
aborting, and returns at most `n` events; when the store holds at most
`n` lines it returns exactly the valid records, in arrival order. -/
theorem tail_skips_corrupt (lines : List (Option StoredEvent)) (n : Int)
    (h : 1 ≤ n) :
    tailEvents lines n =
        (lines.drop (lines.length - n.toNat)).filterMap id ∧
      (tailEvents lines n).length ≤ n.toNat ∧
      (lines.length ≤ n.toNat → tailEvents lines n = lines.filterMap id) := by
  have h0 : (0 : Int) < n := h
  have heq : tailEvents lines n =
      (lines.drop (lines.length - n.toNat)).filterMap id := by
    unfold tailEvents pyTailSlice
    rw [if_pos h0]
  refine ⟨heq, ?_, ?_⟩
  · rw [heq]
    calc ((lines.drop (lines.length - n.toNat)).filterMap id).length
        ≤ (lines.drop (lines.length - n.toNat)).length :=
          List.length_filterMap_le id _
      _ = lines.length - (lines.length - n.toNat) := List.length_drop _ _
      _ ≤ n.toNat := by omega
  · intro hlen
    rw [heq]
    have hz : lines.length - n.toNat = 0 := by omega
    rw [hz, List.drop_zero]

/-- Witness for C8 amended: a store with two valid records and one
corrupt line, read with `n = 5`. -/
theorem tail_skips_corrupt_witness :
    tailEvents linesFix 5 =
        (linesFix.drop (linesFix.length - (5 : Int).toNat)).filterMap id ∧
      (tailEvents linesFix 5).length ≤ (5 : Int).toNat ∧
      (linesFix.length ≤ (5 : Int).toNat →
        tailEvents linesFix 5 = linesFix.filterMap id) :=
  tail_skips_corrupt linesFix 5 (by decide)

/-- C9 counterexample: a raising transport close leaves `is_connected`
true — `stop` returns (with `False`) without transitioning the handler
to Disconnected. -/
theorem stop_counterexample :
    (stop true true (Except.error "close failed")).1 = true ∧
      (stop true true (Except.error "close failed")).2 = false :=
  ⟨rfl, rfl⟩

/-- C9 amended: `stop` is safe to call from any state (it is total and
never raises); from a disconnected state, or without a client handle, it
returns success and changes nothing; from a connected state with a
client it transitions to Disconnected and returns success exactly when
the transport close succeeds, and on a raising close it returns failure
and remains Connected. -/
theorem stop_amended (c cl : Bool) (res : Except String Unit) :
    ((c && cl) = false → stop c cl res = (c, true)) ∧
      (∀ u, (c && cl) = true → res = Except.ok u →
        stop c cl res = (false, true)) ∧
      (∀ m, (c && cl) = true → res = Except.error m →
        stop c cl res = (c, false)) := by
  refine ⟨?_, ?_, ?_⟩
  · intro hcc
    unfold stop
    rw [hcc]
    rfl
  · intro u hcc hres
    unfold stop
    rw [hcc, hres]
    rfl
  · intro m hcc hres
    unfold stop
    rw [hcc, hres]
    rfl

/-- Witness for C9 amended: a connected handler whose close succeeds. -/
theorem stop_amended_witness : stop true true (Except.ok ()) = (false, true) :=
  (stop_amended true true (Except.ok ())).2.1 () rfl rfl

/-- With the failure fallback cached, a message without a `user` field is
classified as self-originated and dropped with an empty trace and an
unchanged state. -/
theorem processMessage_userless_drop (st : HandlerState) (ev : SlackEvent)
    (env : Env) (r : CallResults) (hst : st.botInfo = some none)
    (huser : ev.user = none) :
    processMessage st ev env r = (st, []) := by
  obtain ⟨bi⟩ := st
  cases hst
  have hident : resolvedIdent ⟨some none⟩ r = none := rfl
  have hself : isSelf ev (resolvedIdent ⟨some none⟩ r) = true := by
    unfold isSelf
    rw [hident, huser]
    simp
  unfold processMessage
  simp [hself]
  exact hident

/-- With the failure fallback cached, a whole batch of user-less messages
is dropped: no actions at all and an unchanged state. -/
theorem runMessages_userless_drop
    (steps : List (SlackEvent × Env × CallResults))
    (hall : ∀ p ∈ steps, (p : SlackEvent × Env × CallResults).1.user = none) :
    runMessages ⟨some none⟩ steps = (⟨some none⟩, []) := by
  induction steps with
  | nil => rfl
  | cons p ps ih =>
    have hp := processMessage_userless_drop ⟨some none⟩ p.1 p.2.1 p.2.2 rfl
      (hall p (List.mem_cons_self p ps))
    have hps := ih (fun q hq => hall q (List.mem_cons_of_mem p hq))
    unfold runMessages
    rw [hp]
    dsimp only
    rw [hps]
    rfl

/-- C10: when identity resolution fails at first use, the fallback
`user_id = None` is cached; from then on every message event lacking a
`user` field compares equal to the cached `None` identity, so it is
classified as self-originated and dropped without dispatch, reaction or
publish — and since the cache is never refreshed, a whole lifetime of
such events produces an empty trace and leaves the cache unchanged. -/
theorem failed_identity_drops_userless (st : HandlerState) (ev : SlackEvent)
    (env : Env) (r : CallResults) (msg : String)
    (steps : List (SlackEvent × Env × CallResults)) :
    (st.botInfo = none → r.authTest = Except.error msg →
        ((processMessage st ev env r).1).botInfo = some none) ∧
      (st.botInfo = some none → ev.user = none →
        processMessage st ev env r = (st, [])) ∧
      (st.botInfo = some none →
        (∀ p ∈ steps, (p : SlackEvent × Env × CallResults).1.user = none) →
        runMessages st steps = (st, [])) := by
  refine ⟨?_, ?_, ?_⟩
  · intro hst hauth
    rw [processMessage_fst]
    unfold resolvedIdent
    rw [hst, hauth]
  · intro hst huser
    exact processMessage_userless_drop st ev env r hst huser
  · intro hst hall
    obtain ⟨bi⟩ := st
    cases hst
    exact runMessages_userless_drop steps hall

/-- Witness for C10: a failing `auth_test` caches the fallback, and a
batch of two user-less messages is fully dropped. -/
theorem failed_identity_drops_userless_witness :
    ((processMessage ⟨none⟩ evUserless envPlain
        { rAllOk with authTest := Except.error "auth failed" }).1).botInfo =
        some none ∧
      processMessage ⟨some none⟩ evUserless envPlain rAllOk =
        (⟨some none⟩, []) ∧
      runMessages ⟨some none⟩
          [(evUserless, envPlain, rAllOk),
            ({ evUserless with text := "again" }, envTagged, rAllOk)] =
        (⟨some none⟩, []) :=
  ⟨(failed_identity_drops_userless ⟨none⟩ evUserless envPlain
      { rAllOk with authTest := Except.error "auth failed" } "auth failed"
      []).1 rfl rfl,
    (failed_identity_drops_userless ⟨some none⟩ evUserless envPlain rAllOk
      "m" []).2.1 rfl rfl,
    (failed_identity_drops_userless ⟨some none⟩ evUserless envPlain rAllOk "m"
      [(evUserless, envPlain, rAllOk),
        ({ evUserless with text := "again" }, envTagged, rAllOk)]).2.2 rfl
      (by intro p hp; fin_cases hp <;> rfl)⟩

end SlackEngine
